import Mathlib

/-!
Verification of the API-key MCP server (`my_server.py`, `auth.py`).

The key store (`DatabaseManager`) is modelled as the list of values of the
`key` column of the `api_keys` table, in insertion order.  The SQLite calls
are embedded as pure functions that additionally report their effects:
`validate_key` records whether a `SELECT` was issued and returns the store
contents after the call; the request gate `on_request` records how many
times the continuation `call_next` was invoked.
-/

namespace MCPExample

/-- Outcome of `DatabaseManager.validate_key`: the boolean result, whether a
storage query (`SELECT 1 FROM api_keys WHERE key = ?`) was executed, and the
store contents after the call. -/
structure ValidateOutcome where
  result : Bool
  storageQueried : Bool
  storeAfter : List String
deriving Repr, DecidableEq

/-- `DatabaseManager.validate_key`: `None` short-circuits to `False` before
any connection is opened; otherwise a `SELECT 1 FROM api_keys WHERE key = ?`
is executed and the result is whether a row was found (exact equality on the
key value).  The `SELECT` does not modify the table. -/
def validate_key (store : List String) (api_key : Option String) : ValidateOutcome :=
  match api_key with
  | none => ⟨false, false, store⟩
  | some k => ⟨store.contains k, true, store⟩

/-- `DatabaseManager.init_db`, sequential run: if `SELECT COUNT(*)` returns 0,
a fresh key (`secrets.token_urlsafe(32)` in the source, here a parameter) is
inserted; otherwise nothing is inserted. -/
def init_db (store : List String) (fresh_key : String) : List String :=
  if store.length = 0 then store ++ [fresh_key] else store

/-- The `INSERT INTO api_keys (key) VALUES (?)` statement against the
`key TEXT UNIQUE NOT NULL` column: inserting a key already present raises a
unique-constraint `sqlite3.IntegrityError`. -/
def insert_key (store : List String) (k : String) : Except String (List String) :=
  if store.contains k then
    Except.error "UNIQUE constraint failed: api_keys.key"
  else
    Except.ok (store ++ [k])

/-- `DatabaseManager.init_db` with an interleaving point between its
`SELECT COUNT(*)` and its `INSERT`: `store_at_count` is the table read by the
count, `store_at_insert` the table the insert runs against (a concurrent
initializer may have inserted in between).  The source wraps the body in
`try/finally` with no `except` clause, so an `IntegrityError` from the insert
propagates to the caller. -/
def init_db_interleaved (store_at_count store_at_insert : List String)
    (fresh_key : String) : Except String (List String) :=
  if store_at_count.length = 0 then insert_key store_at_insert fresh_key
  else Except.ok store_at_insert

/-- Python `str.lower()` applied to a header name: lowercase every
character.  `Char.toLower` lowercases exactly the ASCII range, which agrees
with Python on the ASCII header names this server deals in. -/
def str_lower (s : String) : String :=
  String.mk (s.data.map Char.toLower)

/-- The dict comprehension \x7bk.lower(): v for k, v in headers.items()\x7d:
every header name is lowercased (values untouched). -/
def headers_lower (headers : List (String × String)) : List (String × String) :=
  headers.map (fun kv => (str_lower kv.1, kv.2))

/-- Python `dict.get`: headers form a mapping built by successive assignment,
so when several entries share a name the last one wins. -/
def dict_get (d : List (String × String)) (k : String) : Option String :=
  ((d.filter (fun kv => kv.1 == k)).getLast?).map (fun kv => kv.2)

/-- The credential extraction of `ApiKeyMiddleware.on_request` in
`my_server.py`: `headers_lower.get("x-api-key")` on the lowercase-normalized
view of the header names. -/
def extract_api_key (headers : List (String × String)) : Option String :=
  dict_get (headers_lower headers) "x-api-key"

/-- Outcome of the request gate: either the propagated result of `call_next`
or the raised `ToolError` message, together with the number of times
`call_next` was invoked. -/
structure GateOutcome (α : Type) where
  result : Except String α
  call_next_calls : Nat
deriving Repr

/-- `ApiKeyMiddleware.on_request` in `my_server.py`: extracts the
`X-API-Key` header case-insensitively, validates it against the store, raises
`ToolError("Unauthorized: Invalid or missing API Key")` when validation
fails, and otherwise returns `await call_next(context)` unchanged.  The value
produced by the continuation is the parameter `call_next`. -/
def on_request {α : Type} (store : List String) (headers : List (String × String))
    (call_next : α) : GateOutcome α :=
  if (validate_key store (extract_api_key headers)).result then
    ⟨Except.ok call_next, 1⟩
  else
    ⟨Except.error "Unauthorized: Invalid or missing API Key", 0⟩

/-- `ApiKeyMiddleware.on_request` in `auth.py`: exact-case lookup of
`X-API-Key` and comparison against the fixed secret
`"your-secret-api-key"`. -/
def auth_on_request {α : Type} (headers : List (String × String))
    (call_next : α) : GateOutcome α :=
  let api_key := dict_get headers "X-API-Key"
  if api_key ≠ some "your-secret-api-key" then
    ⟨Except.error "Unauthorized: Invalid or missing API Key", 0⟩
  else
    ⟨Except.ok call_next, 1⟩

/-- The `greet` tool of `my_server.py`: the f-string `f"Hello, \x7bname\x7d!"`. -/
def greet (name : String) : String :=
  "Hello, " ++ name ++ "!"

/-! Theorems settling the claims. -/

/-- Claim C1: `validate_key` returns true iff the token is a non-null string
that exactly (byte-for-byte, no trimming, case-folding, or fuzzy matching)
matches a key record present in the store at the time of the call. -/
theorem validate_key_iff_member (store : List String) (t : Option String) :
    (validate_key store t).result = true ↔ ∃ s, t = some s ∧ s ∈ store := by
  cases t with
  | none => simp [validate_key]
  | some k => simp [validate_key, List.elem_iff]

/-- Claim C2: whenever the extracted credential is absent or fails store
validation, the gate fails with the `Unauthorized` `ToolError` and the
continuation `call_next` is never invoked. -/
theorem on_request_rejects_invalid {α : Type} (store : List String)
    (headers : List (String × String)) (call_next : α)
    (h : extract_api_key headers = none ∨
      (validate_key store (extract_api_key headers)).result = false) :
    (on_request store headers call_next).result =
        Except.error "Unauthorized: Invalid or missing API Key" ∧
      (on_request store headers call_next).call_next_calls = 0 := by
  have hv : (validate_key store (extract_api_key headers)).result = false := by
    rcases h with h | h
    · rw [h]; rfl
    · exact h
  simp [on_request, hv]

/-- Witness for C2 at concrete input: store `["abc"]`, empty header map. -/
theorem on_request_rejects_invalid_witness :
    (on_request ["abc"] ([] : List (String × String)) (0 : Nat)).result =
        Except.error "Unauthorized: Invalid or missing API Key" ∧
      (on_request ["abc"] ([] : List (String × String)) (0 : Nat)).call_next_calls = 0 :=
  on_request_rejects_invalid ["abc"] [] 0 (Or.inl rfl)

/-- Claim C3: whenever the extracted credential passes store validation, the
gate invokes `call_next` exactly once and returns its result unchanged. -/
theorem on_request_passes_valid {α : Type} (store : List String)
    (headers : List (String × String)) (call_next : α)
    (h : (validate_key store (extract_api_key headers)).result = true) :
    (on_request store headers call_next).result = Except.ok call_next ∧
      (on_request store headers call_next).call_next_calls = 1 := by
  simp [on_request, h]

/-- Witness for C3 at concrete input: store `["abc"]`, header
`X-API-Key: abc`, continuation result `42`. -/
theorem on_request_passes_valid_witness :
    (on_request ["abc"] [("X-API-Key", "abc")] (42 : Nat)).result = Except.ok 42 ∧
      (on_request ["abc"] [("X-API-Key", "abc")] (42 : Nat)).call_next_calls = 1 :=
  on_request_passes_valid ["abc"] [("X-API-Key", "abc")] 42 (by decide)

/-- Claim C4: the header lookup is case-insensitive on the header name —
`X-API-Key`, `x-api-key` and `X-Api-Key` all yield the same extracted
credential `k`. -/
theorem extract_api_key_case_insensitive (k : String) :
    extract_api_key [("X-API-Key", k)] = some k ∧
      extract_api_key [("x-api-key", k)] = some k ∧
      extract_api_key [("X-Api-Key", k)] = some k :=
  ⟨rfl, rfl, rfl⟩

/-- Counterexample for C5: with the empty string stored as a key,
`validate_key` on `""` returns true, and even on an empty store the call on
`""` performs a storage query — refuting that `validate("")` is always false
without a storage query. -/
theorem validate_empty_string_counterexample :
    (validate_key [""] (some "")).result = true ∧
      (validate_key [] (some "")).storageQueried = true := by
  decide

/-- Claim C5 as amended: `validate(None)` is always false and performs no
storage query; `validate("")` does perform a storage query, and returns
false whenever the empty string is not among the stored keys (it returns
true when it is). -/
theorem validate_none_false_no_query (store : List String) (h : "" ∉ store) :
    (validate_key store none).result = false ∧
      (validate_key store none).storageQueried = false ∧
      (validate_key store (some "")).storageQueried = true ∧
      (validate_key store (some "")).result = false := by
  refine ⟨rfl, rfl, rfl, ?_⟩
  simp [validate_key, List.elem_iff, h]

/-- Witness for amended C5 at concrete store `["abc"]`. -/
theorem validate_none_false_no_query_witness :
    (validate_key ["abc"] none).result = false ∧
      (validate_key ["abc"] none).storageQueried = false ∧
      (validate_key ["abc"] (some "")).storageQueried = true ∧
      (validate_key ["abc"] (some "")).result = false :=
  validate_none_false_no_query ["abc"] (by decide)

/-- Claim C6: starting from the empty store, two sequential `init_db` runs
leave exactly one key record — the second run inserts nothing. -/
theorem init_db_twice_one_record (k₁ k₂ : String) :
    (init_db (init_db [] k₁) k₂).length = 1 :=
  rfl

/-- Counterexample for C7: when a concurrent initializer has already
inserted the fresh key between the count and the insert, the
unique-constraint violation propagates out of `init_db` — it does not
complete benignly. -/
theorem init_db_unique_violation_counterexample :
    init_db_interleaved [] ["k0"] "k0" =
      Except.error "UNIQUE constraint failed: api_keys.key" :=
  rfl

/-- Claim C7 as amended: `init_db` has no handler for a unique-constraint
violation on the default-key insert; whenever the count saw an empty table
but the insert target already contains the fresh key, the
`sqlite3.IntegrityError` propagates to the caller (matching the docstring
`Raises: sqlite3.Error`). -/
theorem init_db_unique_violation_propagates (s₁ s₂ : List String) (k : String)
    (h₁ : s₁.length = 0) (h₂ : k ∈ s₂) :
    init_db_interleaved s₁ s₂ k =
      Except.error "UNIQUE constraint failed: api_keys.key" := by
  simp [init_db_interleaved, insert_key, h₁, List.elem_iff, h₂]

/-- Witness for amended C7 at concrete input: empty table at count time,
`["k0"]` at insert time, fresh key `"k0"`. -/
theorem init_db_unique_violation_propagates_witness :
    init_db_interleaved [] ["k0"] "k0" =
      Except.error "UNIQUE constraint failed: api_keys.key" :=
  init_db_unique_violation_propagates [] ["k0"] "k0" rfl (by decide)

/-- Claim C8: `validate_key` never changes the store — a pure read with no
insertion, deletion, or mutation of key records. -/
theorem validate_key_frame (store : List String) (t : Option String) :
    (validate_key store t).storeAfter = store := by
  cases t <;> rfl

/-- Claim C9: `greet` deterministically returns `"Hello, " ++ name ++ "!"`
for every name, including the empty string; in particular
`greet "Ford" = "Hello, Ford!"` and `greet "" = "Hello, !"`. -/
theorem greet_spec (name : String) :
    greet name = "Hello, " ++ name ++ "!" ∧
      greet "Ford" = "Hello, Ford!" ∧ greet "" = "Hello, !" :=
  ⟨rfl, rfl, rfl⟩

/-- Claim C10: a request with no credential header and a request with a
present but invalid key produce identical rejections — the same `ToolError`
with the same fixed message, and `call_next` invoked zero times in both —
so the rejection reveals nothing about whether or what credential was
supplied. -/
theorem on_request_rejections_indistinguishable {α : Type} (store : List String)
    (hdrs₁ hdrs₂ : List (String × String)) (call_next : α) (k : String)
    (habs : extract_api_key hdrs₁ = none)
    (hpres : extract_api_key hdrs₂ = some k) (hinv : k ∉ store) :
    on_request store hdrs₁ call_next = on_request store hdrs₂ call_next ∧
      (on_request store hdrs₁ call_next).result =
        Except.error "Unauthorized: Invalid or missing API Key" := by
  have h₁ : (validate_key store (extract_api_key hdrs₁)).result = false := by
    rw [habs]; rfl
  have h₂ : (validate_key store (extract_api_key hdrs₂)).result = false := by
    rw [hpres]
    simp [validate_key, List.elem_iff, hinv]
  constructor
  · simp [on_request, h₁, h₂]
  · simp [on_request, h₁]

/-- Witness for C10 at concrete input: store `["abc"]`, one request with no
headers, one with `X-API-Key: zzz`. -/
theorem on_request_rejections_indistinguishable_witness :
    on_request ["abc"] ([] : List (String × String)) (0 : Nat) =
        on_request ["abc"] [("X-API-Key", "zzz")] (0 : Nat) ∧
      (on_request ["abc"] ([] : List (String × String)) (0 : Nat)).result =
        Except.error "Unauthorized: Invalid or missing API Key" :=
  on_request_rejections_indistinguishable ["abc"] [] [("X-API-Key", "zzz")] 0 "zzz"
    rfl rfl (by decide)

end MCPExample
